import Mathlib

/-!
Shallow embedding of `llm.go` from mattoat/pr-manager (package main), together
with proofs about the claims on its behaviour.

Modelling conventions:
- Go strings are modelled as Lean `String` (a list of characters).  The Go code
  indexes strings by byte; every index the code computes is the position of an
  ASCII character (`{`, `}` or the start of an ASCII literal), and ASCII bytes
  never occur inside a multi-byte UTF-8 sequence, so byte positions and
  character positions delimit the same substrings.
- The network, the OpenAI service and the interactive terminal are external to
  the program.  They are modelled as oracle parameters: an `ApiOutcome` per
  request (either a transport/decoding failure, carrying the error text the Go
  code would produce, or a decoded `ChatResponse`), and a list of input lines
  for the interactive reader (a missing line models `ReadString` at end of
  input, which yields the empty string with an ignored error).
- `encoding/json.Unmarshal` into `struct { Questions []string }` is modelled by
  an executable JSON parser (`parseVal`) plus field collection
  (`collectQuestions`): the whole input must be syntactically valid JSON with
  nothing but whitespace after the value, the top level must be an object (or
  `null`, which leaves the struct untouched), every field whose name matches
  `questions` ASCII-case-insensitively must hold an array of strings or `null`,
  and the last such array wins.
- `strings.TrimSpace` and `strings.ToLower` are modelled on the character sets
  the program exercises (ASCII plus the Latin-1 white space Go trims); Go
  additionally maps other Unicode code points, which no claim depends on.
-/

namespace PRManager

/-- Characters removed by `strings.TrimSpace` (Go `unicode.IsSpace`):
space, tab, newline, vertical tab, form feed, carriage return, NEL and NBSP.
Go also strips the other Unicode space code points (category Z). -/
def isGoSpace (c : Char) : Bool :=
  c = ' ' || c = '\t' || c = '\n' || c = '\u000B' || c = '\u000C' || c = '\r' ||
  c = '\u0085' || c = '\u00A0'

/-- Drop leading Go white space from a character list. -/
def trimLeftChars : List Char → List Char
  | [] => []
  | c :: cs => if isGoSpace c then trimLeftChars cs else c :: cs

/-- Model of `strings.TrimSpace`. -/
def goTrimSpace (s : String) : String :=
  ⟨trimLeftChars ((trimLeftChars s.data.reverse).reverse)⟩

/-- Model of `strings.ToLower` (ASCII mapping; Go also lowers non-ASCII
uppercase code points, which the program's comparisons never need). -/
def goToLower (s : String) : String :=
  ⟨s.data.map Char.toLower⟩

/-- Model of `strings.HasPrefix`. -/
def goHasPre (s pre : String) : Bool :=
  pre.data.isPrefixOf s.data

/-- First position `≥ i` (in the full string) at which `needle` occurs in
`hay`; `none` when it does not occur.  `goIndex` below instantiates `i = 0`,
modelling `strings.Index` (which returns `-1` as `none`). -/
def idxOfFrom (hay needle : List Char) (i : Nat) : Option Nat :=
  match hay with
  | [] => none
  | c :: t => if needle.isPrefixOf (c :: t) then some i else idxOfFrom t needle (i + 1)

/-- Model of `strings.Index hay needle` for non-empty `needle`. -/
def goIndex (hay needle : String) : Option Nat :=
  idxOfFrom hay.data needle.data 0

/-- Go slice expression `s[i:j]` on the character list of a string. -/
def goSlice (s : List Char) (i j : Nat) : List Char :=
  (s.drop i).take (j - i)

/-- The brace-matching loop shared by `extractQuestions` and
`extractPRDescription`: starting from absolute index `i` with counter `count`,
increment on `{`, decrement on `}`, and return the absolute index at which the
counter first returns to zero. -/
def braceScan : List Char → Int → Nat → Option Nat
  | [], _, _ => none
  | c :: cs, count, i =>
    if c = '{' then braceScan cs (count + 1) (i + 1)
    else if c = '}' then
      if count - 1 = 0 then some i else braceScan cs (count - 1) (i + 1)
    else braceScan cs count (i + 1)

/-! ### JSON values and the parser modelling `encoding/json` -/

/-- JSON values.  Number lexemes are kept verbatim: the program never reads a
numeric value, it only needs to know whether one is present. -/
inductive Jval where
  | jnull : Jval
  | jbool : Bool → Jval
  | jnum : List Char → Jval
  | jstr : List Char → Jval
  | jarr : List Jval → Jval
  | jobj : List (List Char × Jval) → Jval

/-- JSON insignificant white space (RFC 8259: space, tab, newline, return). -/
def skipWs : List Char → List Char
  | [] => []
  | c :: cs => if c = ' ' || c = '\t' || c = '\n' || c = '\r' then skipWs cs else c :: cs

/-- Value of a hexadecimal digit. -/
def hexVal (c : Char) : Option Nat :=
  if '0' ≤ c ∧ c ≤ '9' then some (c.toNat - '0'.toNat)
  else if 'a' ≤ c ∧ c ≤ 'f' then some (c.toNat - 'a'.toNat + 10)
  else if 'A' ≤ c ∧ c ≤ 'F' then some (c.toNat - 'A'.toNat + 10)
  else none

/-- Four hexadecimal digits, as in a `\uXXXX` escape. -/
def parseHex4 : List Char → Option (Nat × List Char)
  | a :: b :: c :: d :: rest =>
    match hexVal a, hexVal b, hexVal c, hexVal d with
    | some x, some y, some z, some w => some (((x * 16 + y) * 16 + z) * 16 + w, rest)
    | _, _, _, _ => none
  | _ => none

/-- Decode one escape sequence (the characters after a backslash), returning
the decoded characters and the remaining input.  Unpaired surrogates decode to
U+FFFD, as in Go's JSON decoder. -/
def parseEsc (s : List Char) : Option (List Char × List Char) :=
  match s with
  | [] => none
  | e :: rest =>
    if e = '"' then some (['"'], rest)
    else if e = '\\' then some (['\\'], rest)
    else if e = '/' then some (['/'], rest)
    else if e = 'b' then some (['\u0008'], rest)
    else if e = 'f' then some (['\u000C'], rest)
    else if e = 'n' then some (['\n'], rest)
    else if e = 'r' then some (['\r'], rest)
    else if e = 't' then some (['\t'], rest)
    else if e = 'u' then
      match parseHex4 rest with
      | none => none
      | some (n, rest1) =>
        if 0xD800 ≤ n ∧ n < 0xDC00 then
          match rest1 with
          | '\\' :: 'u' :: rest2 =>
            match parseHex4 rest2 with
            | some (m, rest3) =>
              if 0xDC00 ≤ m ∧ m < 0xE000 then
                some ([Char.ofNat (0x10000 + (n - 0xD800) * 0x400 + (m - 0xDC00))], rest3)
              else some (['�'], rest1)
            | none => some (['�'], rest1)
          | _ => some (['�'], rest1)
        else if 0xDC00 ≤ n ∧ n < 0xE000 then some (['�'], rest1)
        else some ([Char.ofNat n], rest1)
    else none

/-- Body of a JSON string after the opening quote: decoded content and the
input after the closing quote.  Raw control characters are rejected. -/
def parseJStr (fuel : Nat) (s : List Char) : Option (List Char × List Char) :=
  match fuel, s with
  | 0, _ => none
  | _, [] => none
  | fuel + 1, c :: cs =>
    if c = '"' then some ([], cs)
    else if c = '\\' then
      match parseEsc cs with
      | none => none
      | some (dec, rest) =>
        match parseJStr fuel rest with
        | none => none
        | some (body, rest1) => some (dec ++ body, rest1)
    else if c.toNat < 0x20 then none
    else
      match parseJStr fuel cs with
      | none => none
      | some (body, rest1) => some (c :: body, rest1)

/-- Longest leading run of decimal digits. -/
def takeDigits : List Char → List Char × List Char
  | [] => ([], [])
  | c :: cs =>
    if c.isDigit then
      match takeDigits cs with
      | (d, r) => (c :: d, r)
    else ([], c :: cs)

/-- One or more decimal digits. -/
def parseDigits1 (s : List Char) : Option (List Char × List Char) :=
  match takeDigits s with
  | ([], _) => none
  | (d, r) => some (d, r)

/-- Optional fraction part of a JSON number: a `.` must be followed by at
least one digit. -/
def parseFracOpt (s : List Char) : Option (List Char × List Char) :=
  match s with
  | '.' :: r =>
    match parseDigits1 r with
    | some (d, r2) => some ('.' :: d, r2)
    | none => none
  | _ => some ([], s)

/-- Optional exponent part of a JSON number. -/
def parseExpOpt (s : List Char) : Option (List Char × List Char) :=
  match s with
  | [] => some ([], [])
  | c :: r =>
    if c = 'e' ∨ c = 'E' then
      let (sgn, r4) : List Char × List Char :=
        match r with
        | '+' :: r' => (['+'], r')
        | '-' :: r' => (['-'], r')
        | _ => ([], r)
      match parseDigits1 r4 with
      | some (d, r5) => some (c :: (sgn ++ d), r5)
      | none => none
    else some ([], c :: r)

/-- JSON number lexeme (RFC 8259 grammar): optional minus, integer part
without leading zeros, optional fraction, optional exponent. -/
def parseNum (s : List Char) : Option (List Char × List Char) :=
  let (neg, s1) : List Char × List Char :=
    match s with
    | '-' :: cs => (['-'], cs)
    | _ => ([], s)
  match s1 with
  | [] => none
  | c :: cs =>
    let intPart? : Option (List Char × List Char) :=
      if c = '0' then some (['0'], cs)
      else if c.isDigit then
        match takeDigits cs with
        | (d, r) => some (c :: d, r)
      else none
    match intPart? with
    | none => none
    | some (ip, r1) =>
      match parseFracOpt r1 with
      | none => none
      | some (fp, r2) =>
        match parseExpOpt r2 with
        | none => none
        | some (ep, r3) => some (neg ++ ip ++ fp ++ ep, r3)

mutual

/-- JSON value, preceded by optional white space. -/
def parseVal (fuel : Nat) (s : List Char) : Option (Jval × List Char) :=
  match fuel with
  | 0 => none
  | fuel + 1 =>
    match skipWs s with
    | [] => none
    | c :: cs =>
      if c = '"' then
        match parseJStr (cs.length + 1) cs with
        | some (b, r) => some (.jstr b, r)
        | none => none
      else if c = '{' then
        match skipWs cs with
        | '}' :: r => some (.jobj [], r)
        | s' =>
          match parseObjRest fuel s' with
          | some (fs, r) => some (.jobj fs, r)
          | none => none
      else if c = '[' then
        match skipWs cs with
        | ']' :: r => some (.jarr [], r)
        | s' =>
          match parseArrRest fuel s' with
          | some (vs, r) => some (.jarr vs, r)
          | none => none
      else if c = 't' then
        match cs with
        | 'r' :: 'u' :: 'e' :: r => some (.jbool true, r)
        | _ => none
      else if c = 'f' then
        match cs with
        | 'a' :: 'l' :: 's' :: 'e' :: r => some (.jbool false, r)
        | _ => none
      else if c = 'n' then
        match cs with
        | 'u' :: 'l' :: 'l' :: r => some (.jnull, r)
        | _ => none
      else
        match parseNum (c :: cs) with
        | some (lex, r) => some (.jnum lex, r)
        | none => none

/-- Non-empty tail of a JSON array: a value followed by `,` and more values or
by the closing bracket. -/
def parseArrRest (fuel : Nat) (s : List Char) : Option (List Jval × List Char) :=
  match fuel with
  | 0 => none
  | fuel + 1 =>
    match parseVal fuel s with
    | none => none
    | some (v, r) =>
      match skipWs r with
      | ',' :: r2 =>
        match parseArrRest fuel r2 with
        | some (vs, r3) => some (v :: vs, r3)
        | none => none
      | ']' :: r2 => some ([v], r2)
      | _ => none

/-- Non-empty tail of a JSON object: a `"key": value` pair followed by `,` and
more pairs or by the closing brace. -/
def parseObjRest (fuel : Nat) (s : List Char) : Option (List (List Char × Jval) × List Char) :=
  match fuel with
  | 0 => none
  | fuel + 1 =>
    match skipWs s with
    | '"' :: cs =>
      match parseJStr (cs.length + 1) cs with
      | none => none
      | some (k, r) =>
        match skipWs r with
        | ':' :: r2 =>
          match parseVal fuel r2 with
          | none => none
          | some (v, r3) =>
            match skipWs r3 with
            | ',' :: r4 =>
              match parseObjRest fuel r4 with
              | some (fs, r5) => some ((k, v) :: fs, r5)
              | none => none
            | '}' :: r4 => some ([(k, v)], r4)
            | _ => none
        | _ => none
    | _ => none

end

/-- Parse a complete JSON document: one value with only white space after it. -/
def parseJsonDoc (s : String) : Option Jval :=
  match parseVal (2 * s.data.length + 8) s.data with
  | some (v, r) => if skipWs r = [] then some v else none
  | none => none

/-- ASCII-case-insensitive equality, as `encoding/json` uses to match object
keys against struct field names. -/
def asciiFoldEq (a b : List Char) : Bool :=
  a.map Char.toLower == b.map Char.toLower

/-- An array whose elements are all strings, decoded as Go decodes into
`[]string` (any non-string element is a type error). -/
def strListOf : List Jval → Option (List String)
  | [] => some []
  | .jstr s :: rest =>
    match strListOf rest with
    | some l => some (⟨s⟩ :: l)
    | none => none
  | _ => none

/-- The characters of the struct tag `questions`. -/
def questionsKey : List Char := "questions".data

/-- Walk the object fields as `encoding/json` does when decoding into
`struct { Questions []string }`: every field whose key matches `questions`
must hold an array of strings (which replaces the current value) or `null`
(which leaves it unchanged); any other value is a decoding error. -/
def collectQuestions : List (List Char × Jval) → List String → Option (List String)
  | [], acc => some acc
  | (k, v) :: rest, acc =>
    if asciiFoldEq k questionsKey then
      match v with
      | .jnull => collectQuestions rest acc
      | .jarr xs =>
        match strListOf xs with
        | some l => collectQuestions rest l
        | none => none
      | _ => none
    else collectQuestions rest acc

/-- Model of `json.Unmarshal([]byte s, &questionsObj)` for
`questionsObj : struct { Questions []string }`: `none` is a decoding error,
`some qs` is success with `Questions = qs` (`[]` models Go's nil slice). -/
def unmarshalQuestions (s : String) : Option (List String) :=
  match parseJsonDoc s with
  | some (.jobj fields) => collectQuestions fields []
  | some .jnull => some []
  | some _ => none
  | none => none

/-! ### Data model of the Go program -/

/-- Go struct `QuestionResponse`: a question from the LLM and the user's
answer. -/
structure QuestionResponse where
  Question : String
  Answer : String
deriving DecidableEq, Repr

/-- Go struct `LLMConfig` of the questions-enabled variant. -/
structure LLMConfig where
  APIKey : String
  Model : String
  Temperature : Float
  MaxTokens : Int
  EnableQuestions : Bool

/-- Go struct `LLMConfig` of the older single-call variant (it has no
`EnableQuestions` field). -/
structure OldLLMConfig where
  APIKey : String
  Model : String
  Temperature : Float
  MaxTokens : Int

/-- Go struct `ChatMessage`. -/
structure ChatMessage where
  Role : String
  Content : String
deriving DecidableEq, Repr

/-- One element of `ChatResponse.Choices`. -/
structure ChatChoice where
  Message : ChatMessage
deriving DecidableEq, Repr

/-- The anonymous `Error` struct of `ChatResponse`. -/
structure ApiErr where
  Message : String
deriving DecidableEq, Repr

/-- Go struct `ChatResponse`, the decoded body of a chat-completions reply. -/
structure ChatResponse where
  Choices : List ChatChoice
  Error : Option ApiErr
deriving DecidableEq, Repr

/-- Outcome of one HTTP round trip, as seen after `json.Unmarshal`:
either a failure of `client.Do` / `ioutil.ReadAll` / `json.Unmarshal`
(carrying the formatted error text the Go code builds for it), or a decoded
`ChatResponse`.  `json.Marshal` of a `ChatRequest` and `http.NewRequest` with
the constant URL never fail, so those two error paths are unreachable. -/
inductive ApiOutcome where
  | transportFailure : String → ApiOutcome
  | success : ChatResponse → ApiOutcome

/-- Error text of the API-key guard in all three request functions. -/
def apiKeyMissingError : String :=
  "OpenAI API key not found. Set the OPENAI_KEY environment variable"

/-- Shared tail of `makeOpenAIRequest`, `GenerateCommitMessage` and both
`GeneratePRMessage` variants (the Go code repeats this block verbatim):
report the decoded error if present, then the empty-choices error, else the
content of the first choice. -/
def makeOpenAIRequest (outcome : ApiOutcome) : Except String String :=
  match outcome with
  | .transportFailure msg => .error msg
  | .success r =>
    match r.Error with
    | some e => .error ("API error: " ++ e.Message)
    | none =>
      match r.Choices with
      | [] => .error "no response from API"
      | c :: _ => .ok c.Message.Content

/-! ### Prompt construction -/

/-- Go `getQuestionsPrompt`: the raw-string instructions when questions are
enabled (tabs and newlines are those of the Go raw literal), else `""`. -/
def getQuestionsPrompt (enableQuestions : Bool) : String :=
  if enableQuestions then
    "\n\tIf you need additional information to write a more informative PR description, you can ask up to 3 questions.\n\tTo ask questions, respond with a JSON object in the following format:\n\t\x7b\"questions\": [\"question 1\", \"question 2\", \"question 3\"]\x7d\n\t\n\tOnly ask questions if you genuinely need more context to write a better PR description. Don't ask questions in most cases.\n\t"
  else ""

/-- The raw-string body passed as the first data argument of `fmt.Sprintf` in
the questions-enabled `GeneratePRMessage` (its two `%s` verbs are never
substituted, because this string is an argument rather than the format). -/
def prPromptBody : String :=
  "You are a professional software engineer who has finished a feature branch and is creating a pull request. \n\tYou will be given a list of commit messages from the branch and a PR template. Use the template to generate a comprehensive PR description.\n\tThe PR description should clearly explain the changes, their purpose, and any important implementation details. \n\tDo not include any other texts about testing, a human who will review your PR message will fill that part out.\n\tIMPORTANT: You MUST include the ENTIRE template in your response, including ALL sections at the end.\n\t%s\n\tUse the following template format for your response:\n\t%s"

/-- System prompt of the questions-enabled `GeneratePRMessage`.  The Go code
calls `fmt.Sprintf(getQuestionsPrompt(...), body, template)`: the questions
prompt is the format string and contains no verb, so `fmt` appends its
standard diagnostic for the two unconsumed operands. -/
def prSystemPrompt (enableQuestions : Bool) (template : String) : String :=
  getQuestionsPrompt enableQuestions ++
    "%!(EXTRA string=" ++ prPromptBody ++ ", string=" ++ template ++ ")"

/-- System prompt of the older `GeneratePRMessage` variant:
`fmt.Sprintf` substitutes the template for the single trailing `%s`. -/
def oldPRSystemPrompt (template : String) : String :=
  "You are a professional software engineer who has finished a feature branch and is creating a pull request. \n\tYou will be given a list of commit messages from the branch and a PR template. Use the template to generate a comprehensive PR description.\n\tThe PR description should clearly explain the changes, their purpose, and any important implementation details. \n\tDo not include any other texts about testing, a human who will review your PR message will fill that part out.\n\tUse the following template format for your response. Be sure to include the entirety of the template:\n\t" ++ template

/-- System prompt of `GenerateCommitMessage`: the template is substituted for
the trailing `%s` of the raw string. -/
def commitSystemPrompt (template : String) : String :=
  "You are a professional software engineer who has just finished writing code.\n\tYou've staged your changes and are now tasked with writing a commit message. You will be given a git\n\tdiff and a template. Use the git diff to determine what changes have been made in this commit. This is important\n\tfor you to write an accurate and thoughtful commit message. Use the template to generate a commit message. \n\tThe commit message should be concise and informative. The people reveiwing your commit message are also professional software engineers, \n\tso you can use technical language and do not need to spell out abbreviations such as PR, LLM, FF, etc. \n\tThe template is a markdown file, but don't include the comments in your response.\n\tThe first line of the commit message should be structured as follows:\n\t<subdirectory of the repo> <common directory of the file changes>: <brief title of the changes>\n\tExample: go ingester_worker: Adds implementation for receiving LLM requests\n\tExample: client dashboard_settings: add LLM settings to UI\n\tExample: go gql_api: Defines GraphQL API for auth signin\n\tExample: database/migrations: Adds new migrations for new tables\n\tExample: client map: fixes bug with map view\n\t\n\tDo not include any markdown headers in your response.\n\tThe rest of the commit message should be an informative description of the changes you made.\n\tUse the following template format for your response:\n\t" ++ template

/-- The user message of `GenerateCommitMessage`. -/
def diffUserContent (diff : String) : String :=
  "Here is the git diff:\n\n" ++ diff

/-- The user message of both `GeneratePRMessage` variants. -/
def commitsUserContent (commits : String) : String :=
  "Here are the commit messages from the branch:\n\n" ++ commits

/-! ### Questions extraction -/

/-- The literal `{"questions":` that both extraction functions search for. -/
def questionsMarker : String := "\x7b\"questions\":"

/-- Go `extractQuestions`: locate the marker, delimit the payload by the
brace-matching scan with a first-closing-brace fallback (`strings.Index` of
`"}"` shifted by `startIdx`; the Go code compares that sum with `-1`, which
only detects the no-brace case when `startIdx` is `0` — otherwise the slice
`response[startIdx : endIdx+1]` is empty and the JSON decode fails), decode it,
drop empty question lists, cap at three questions, and wrap each question with
an empty answer. -/
def extractQuestions (response : String) : Option (List QuestionResponse) × Bool :=
  match goIndex response questionsMarker with
  | none => (none, false)
  | some startIdx =>
    let d := response.data
    let endIdxI : Int :=
      match braceScan (d.drop startIdx) 0 startIdx with
      | some e => (e : Int)
      | none =>
        (match idxOfFrom (d.drop startIdx) ['}'] 0 with
         | some j => (j : Int)
         | none => -1) + (startIdx : Int)
    if endIdxI = -1 then (none, false)
    else
      let jsonStr : String := ⟨goSlice d startIdx (endIdxI + 1).toNat⟩
      match unmarshalQuestions jsonStr with
      | none => (none, false)
      | some qs =>
        if qs.length = 0 then (none, false)
        else
          let qsCapped := if qs.length > 3 then qs.take 3 else qs
          let res := qsCapped.map (fun q => ⟨q, ""⟩)
          (some res, decide (res.length > 0))

/-- Go `extractPRDescription`: empty when the trimmed response is empty or
starts with the marker; otherwise the response itself when the marker or a
matching closing brace is missing; otherwise the trimmed texts before and
after the payload, joined by a blank line when both are non-empty. -/
def extractPRDescription (response : String) : String :=
  if goTrimSpace response = "" ∨ goHasPre (goTrimSpace response) questionsMarker then ""
  else
    match goIndex response questionsMarker with
    | none => response
    | some startIdx =>
      match braceScan (response.data.drop startIdx) 0 startIdx with
      | none => response
      | some endIdx =>
        let beforeQuestions := goTrimSpace ⟨response.data.take startIdx⟩
        let afterQuestions := goTrimSpace ⟨response.data.drop (endIdx + 1)⟩
        if beforeQuestions ≠ "" ∧ afterQuestions ≠ "" then
          beforeQuestions ++ "\n\n" ++ afterQuestions
        else if beforeQuestions ≠ "" then beforeQuestions
        else if afterQuestions ≠ "" then afterQuestions
        else ""

/-! ### The interactive question loop -/

/-- The compound condition of the skip check in `askUserQuestions`. -/
def skipRequested (ans : String) : Bool :=
  goToLower ans == "skip all" || goToLower ans == "skipall"

/-- Go `askUserQuestions`.  `inputs` is the sequence of lines the buffered
reader yields; when it is exhausted, `ReadString` returns an empty string with
an error the code ignores, modelled by `headD ""`.  Each answer is trimmed and
stored; a `skip all` / `skipall` answer clears every later answer and stops
reading. -/
def askUserQuestions : List QuestionResponse → List String → List QuestionResponse
  | [], _ => []
  | q :: rest, inputs =>
    let ans := goTrimSpace (inputs.headD "")
    if skipRequested ans then
      { q with Answer := ans } :: rest.map (fun r => { r with Answer := "" })
    else
      { q with Answer := ans } :: askUserQuestions rest inputs.tail

/-! ### The request functions -/

/-- Message list of the single `GenerateCommitMessage` request. -/
def commitMsgList (diff template : String) : List ChatMessage :=
  [⟨"system", commitSystemPrompt template⟩, ⟨"user", diffUserContent diff⟩]

/-- Go `GenerateCommitMessage`.  `api` is the outcome of the one request the
function can make; the second component records the message list of every
request actually issued. -/
def GenerateCommitMessage (diff : String) (config : LLMConfig) (template : String)
    (api : ApiOutcome) : Except String String × List (List ChatMessage) :=
  if config.APIKey = "" then (.error apiKeyMissingError, [])
  else
    match makeOpenAIRequest api with
    | .error e => (.error e, [commitMsgList diff template])
    | .ok content => (.ok (goTrimSpace content), [commitMsgList diff template])

/-- Message list of the first questions-enabled `GeneratePRMessage` request. -/
def prFirstMessages (config : LLMConfig) (commits template : String) : List ChatMessage :=
  [⟨"system", prSystemPrompt config.EnableQuestions template⟩,
   ⟨"user", commitsUserContent commits⟩]

/-- The fixed assistant message opening the replayed conversation. -/
def assistantNotice : ChatMessage :=
  ⟨"assistant", "I need some additional information to write a better PR description."⟩

/-- The fixed user message closing the replayed conversation. -/
def finalUserPrompt : ChatMessage :=
  ⟨"user", "Now that you have this additional information, please generate a comprehensive PR description using the template provided earlier."⟩

/-- The question/answer pairs appended by the Go loop: two messages per
answered question, nothing for unanswered ones. -/
def qaMessages : List QuestionResponse → List ChatMessage
  | [] => []
  | qa :: rest =>
    (if qa.Answer ≠ "" then [⟨"assistant", qa.Question⟩, ⟨"user", qa.Answer⟩] else []) ++
      qaMessages rest

/-- Message list of the second questions-enabled `GeneratePRMessage` request. -/
def prSecondMessages (config : LLMConfig) (commits template : String)
    (qas : List QuestionResponse) : List ChatMessage :=
  prFirstMessages config commits template ++ [assistantNotice] ++ qaMessages qas ++
    [finalUserPrompt]

/-- Go `GeneratePRMessage` (questions-enabled variant).  `api n` is the
outcome of the `n`-th request, `inputs` the interactive reader's lines; the
second component records the message list of every request issued. -/
def GeneratePRMessage (commits : String) (config : LLMConfig) (template : String)
    (api : Nat → ApiOutcome) (inputs : List String) :
    Except String String × List (List ChatMessage) :=
  if config.APIKey = "" then (.error apiKeyMissingError, [])
  else
    match makeOpenAIRequest (api 0) with
    | .error e => (.error e, [prFirstMessages config commits template])
    | .ok response =>
      let questionResponses := (extractQuestions response).1
      let hasQuestions := (extractQuestions response).2
      if hasQuestions && config.EnableQuestions then
        let answered := askUserQuestions (questionResponses.getD []) inputs
        let anyAnswered := answered.any (fun q => q.Answer != "")
        if anyAnswered then
          match makeOpenAIRequest (api 1) with
          | .error e =>
            (.error e, [prFirstMessages config commits template,
              prSecondMessages config commits template answered])
          | .ok response2 =>
            (.ok (goTrimSpace response2), [prFirstMessages config commits template,
              prSecondMessages config commits template answered])
        else
          (.ok (goTrimSpace (extractPRDescription response)),
            [prFirstMessages config commits template])
      else (.ok (goTrimSpace response), [prFirstMessages config commits template])

/-- Message list of the single request of the older variant. -/
def oldPRMsgList (commits template : String) : List ChatMessage :=
  [⟨"system", oldPRSystemPrompt template⟩, ⟨"user", commitsUserContent commits⟩]

/-- Go `GeneratePRMessage` of the older single-call variant. -/
def GeneratePRMessageOld (commits : String) (config : OldLLMConfig) (template : String)
    (api : Nat → ApiOutcome) : Except String String × List (List ChatMessage) :=
  if config.APIKey = "" then (.error apiKeyMissingError, [])
  else
    match makeOpenAIRequest (api 0) with
    | .error e => (.error e, [oldPRMsgList commits template])
    | .ok content => (.ok (goTrimSpace content), [oldPRMsgList commits template])

/-! ### Supporting lemmas -/

theorem idxOfFrom_bounds {hay needle : List Char} {i j : Nat}
    (h : idxOfFrom hay needle i = some j) :
    i ≤ j ∧ j - i + needle.length ≤ hay.length := by
  induction hay generalizing i with
  | nil => simp [idxOfFrom] at h
  | cons c t ih =>
    rw [idxOfFrom] at h
    split at h
    · rename_i hpre
      cases h
      have : needle <+: (c :: t) := by
        exact List.isPrefixOf_iff_prefix.mp hpre
      have := this.length_le
      omega
    · have := ih h
      simp only [List.length_cons]
      omega

theorem idxOfFrom_none_not_mem {hay : List Char} {ch : Char} {i : Nat}
    (h : idxOfFrom hay [ch] i = none) : ch ∉ hay := by
  induction hay generalizing i with
  | nil => simp
  | cons c t ih =>
    rw [idxOfFrom] at h
    split at h
    · cases h
    · rename_i hpre
      have hne : ¬ ch = c := by
        intro he
        apply hpre
        simp [List.isPrefixOf, he]
      have := ih h
      simp [hne, this]

theorem braceScan_bounds {l : List Char} {count : Int} {i e : Nat}
    (h : braceScan l count i = some e) : i ≤ e ∧ e < i + l.length := by
  induction l generalizing count i with
  | nil => simp [braceScan] at h
  | cons c t ih =>
    rw [braceScan] at h
    split at h
    · have := ih h
      simp only [List.length_cons]
      omega
    · split at h
      · split at h
        · cases h
          simp
        · have := ih h
          simp only [List.length_cons]
          omega
      · have := ih h
        simp only [List.length_cons]
        omega

theorem braceScan_mem {l : List Char} {count : Int} {i e : Nat}
    (h : braceScan l count i = some e) : '}' ∈ l := by
  induction l generalizing count i with
  | nil => simp [braceScan] at h
  | cons c t ih =>
    rw [braceScan] at h
    split at h
    · exact List.mem_cons_of_mem _ (ih h)
    · split at h
      · rename_i hc
        exact hc ▸ List.mem_cons_self _ _
      · exact List.mem_cons_of_mem _ (ih h)

/-- The questions payload as the (amended) claim describes it: the substring
starting at the first occurrence of the marker and ending at the position
where the brace counter first returns to zero or, when the counter never
returns to zero, at the first closing brace at or after the marker; no payload
when the marker is absent or no closing brace exists at or after it. -/
def claimQuestionsPayload (r : String) : Option String :=
  match goIndex r questionsMarker with
  | none => none
  | some s =>
    match braceScan (r.data.drop s) 0 s with
    | some e => some ⟨goSlice r.data s (e + 1)⟩
    | none =>
      match idxOfFrom (r.data.drop s) ['}'] 0 with
      | some j => some ⟨goSlice r.data s (s + j + 1)⟩
      | none => none

theorem extractQuestions_payload_some {r p : String}
    (h : claimQuestionsPayload r = some p) :
    extractQuestions r =
      match unmarshalQuestions p with
      | none => (none, false)
      | some qs =>
        if qs.length = 0 then (none, false)
        else
          (some ((if qs.length > 3 then qs.take 3 else qs).map (fun q => ⟨q, ""⟩)),
           decide (((if qs.length > 3 then qs.take 3 else qs).map
             (fun q => (⟨q, ""⟩ : QuestionResponse))).length > 0)) := by
  rw [claimQuestionsPayload] at h
  rw [extractQuestions]
  cases hidx : goIndex r questionsMarker with
  | none => rw [hidx] at h; exact Option.noConfusion h
  | some s =>
    simp only [hidx] at h ⊢
    cases hscan : braceScan (r.data.drop s) 0 s with
    | some e =>
      simp only [hscan, Option.some.injEq] at h ⊢
      subst h
      have hne : ¬ ((e : Int) = -1) := by omega
      have he1 : (((e : Int)) + 1).toNat = e + 1 := by omega
      simp only [hne, if_false, he1]
    | none =>
      simp only [hscan] at h ⊢
      cases hj : idxOfFrom (r.data.drop s) ['}'] 0 with
      | none => rw [hj] at h; exact Option.noConfusion h
      | some j =>
        simp only [hj, Option.some.injEq] at h ⊢
        subst h
        have hne : ¬ ((j : Int) + (s : Int) = -1) := by omega
        have he1 : ((j : Int) + (s : Int) + 1).toNat = s + j + 1 := by omega
        simp only [hne, if_false, he1]

theorem extractQuestions_payload_none {r : String}
    (h : claimQuestionsPayload r = none) :
    extractQuestions r = (none, false) := by
  rw [claimQuestionsPayload] at h
  rw [extractQuestions]
  cases hidx : goIndex r questionsMarker with
  | none => rfl
  | some s =>
    simp only [hidx] at h ⊢
    cases hscan : braceScan (r.data.drop s) 0 s with
    | some e => rw [hscan] at h; exact Option.noConfusion h
    | none =>
      simp only [hscan] at h ⊢
      cases hj : idxOfFrom (r.data.drop s) ['}'] 0 with
      | some j => rw [hj] at h; exact Option.noConfusion h
      | none =>
        simp only [hj]
        by_cases hs : s = 0
        · subst hs
          norm_num
        · have hne : ¬ ((-1 : Int) + (s : Int) = -1) := by omega
          have he1 : ((-1 : Int) + (s : Int) + 1).toNat = s := by omega
          simp only [hne, if_false, he1]
          have hempty : (⟨goSlice r.data s s⟩ : String) = "" := by
            show String.mk (goSlice r.data s s) = String.mk []
            simp [goSlice]
          rw [hempty]
          rfl

theorem qaMessages_eq_join_filter (l : List QuestionResponse) :
    qaMessages l = ((l.filter (fun q => q.Answer != "")).map
      (fun qa => [ChatMessage.mk "assistant" qa.Question,
                  ChatMessage.mk "user" qa.Answer])).join := by
  induction l with
  | nil => rfl
  | cons qa rest ih =>
    rw [qaMessages]
    by_cases hq : qa.Answer = ""
    · simp [List.filter_cons, hq, ih]
    · simp [List.filter_cons, hq, ih]

theorem askUserQuestions_length (qs : List QuestionResponse) (inputs : List String) :
    (askUserQuestions qs inputs).length = qs.length := by
  induction qs generalizing inputs with
  | nil => rfl
  | cons q rest ih =>
    rw [askUserQuestions]
    cases hs : skipRequested (goTrimSpace (inputs.headD "")) with
    | true => simp
    | false => simp [ih]

theorem askUserQuestions_preserves (qs : List QuestionResponse) (inputs : List String) :
    (askUserQuestions qs inputs).map (fun q => q.Question) =
      qs.map (fun q => q.Question) := by
  induction qs generalizing inputs with
  | nil => rfl
  | cons q rest ih =>
    rw [askUserQuestions]
    cases hs : skipRequested (goTrimSpace (inputs.headD "")) with
    | true =>
      simp only [if_true, List.map_cons, List.map_map]
      rfl
    | false => simp [ih]

theorem skipRequested_ne_empty {s : String} (h : skipRequested s = true) : s ≠ "" := by
  intro he
  rw [he] at h
  exact absurd h (by decide)

theorem askUserQuestions_skip_shape (qs : List QuestionResponse) (pre : List String)
    (x : String) (post : List String) (hlen : pre.length < qs.length)
    (hpre : ∀ a ∈ pre, skipRequested (goTrimSpace a) = false)
    (hx : skipRequested (goTrimSpace x) = true) :
    askUserQuestions qs (pre ++ x :: post) =
      askUserQuestions (qs.take pre.length) pre ++
        { qs.get ⟨pre.length, hlen⟩ with Answer := goTrimSpace x } ::
          (qs.drop (pre.length + 1)).map (fun r => { r with Answer := "" }) := by
  induction pre generalizing qs with
  | nil =>
    match qs with
    | q :: rest =>
      rw [List.nil_append, askUserQuestions]
      simp [hx, askUserQuestions]
  | cons a pre' ih =>
    match qs with
    | q :: rest =>
      have ha : skipRequested (goTrimSpace a) = false := hpre a (by simp)
      have hpre' : ∀ b ∈ pre', skipRequested (goTrimSpace b) = false := by
        intro b hb
        exact hpre b (by simp [hb])
      have hlen' : pre'.length < rest.length := by
        simpa using Nat.lt_of_succ_lt_succ hlen
      simp only [List.cons_append, List.length_cons, List.take_succ_cons,
        List.drop_succ_cons, List.get_cons_succ]
      rw [askUserQuestions, askUserQuestions]
      simp only [List.headD_cons, List.tail_cons, ha, Bool.false_eq_true, if_false,
        List.cons_append]
      congr 1
      exact ih rest hlen' hpre'

section RunShape

variable {commits template : String} {config : LLMConfig}
variable {api : Nat → ApiOutcome} {inputs : List String}

theorem gpr_key_empty (h : config.APIKey = "") :
    GeneratePRMessage commits config template api inputs =
      (.error apiKeyMissingError, []) := by
  rw [GeneratePRMessage, if_pos h]

theorem gpr_first_err {e : String} (h : ¬ config.APIKey = "")
    (he : makeOpenAIRequest (api 0) = .error e) :
    GeneratePRMessage commits config template api inputs =
      (.error e, [prFirstMessages config commits template]) := by
  rw [GeneratePRMessage, if_neg h, he]

theorem gpr_no_second {resp : String} (h : ¬ config.APIKey = "")
    (hr : makeOpenAIRequest (api 0) = .ok resp)
    (hq : ((extractQuestions resp).2 && config.EnableQuestions) = false) :
    GeneratePRMessage commits config template api inputs =
      (.ok (goTrimSpace resp), [prFirstMessages config commits template]) := by
  rw [GeneratePRMessage, if_neg h, hr]
  simp only [hq, Bool.false_eq_true, if_false]

theorem gpr_unanswered {resp : String} (h : ¬ config.APIKey = "")
    (hr : makeOpenAIRequest (api 0) = .ok resp)
    (hq : ((extractQuestions resp).2 && config.EnableQuestions) = true)
    (ha : ((askUserQuestions ((extractQuestions resp).1.getD []) inputs).any
        (fun q => q.Answer != "")) = false) :
    GeneratePRMessage commits config template api inputs =
      (.ok (goTrimSpace (extractPRDescription resp)),
       [prFirstMessages config commits template]) := by
  rw [GeneratePRMessage, if_neg h, hr]
  simp only [hq, if_true, ha, Bool.false_eq_true, if_false]

theorem gpr_answered_err {resp e : String} (h : ¬ config.APIKey = "")
    (hr : makeOpenAIRequest (api 0) = .ok resp)
    (hq : ((extractQuestions resp).2 && config.EnableQuestions) = true)
    (ha : ((askUserQuestions ((extractQuestions resp).1.getD []) inputs).any
        (fun q => q.Answer != "")) = true)
    (h2 : makeOpenAIRequest (api 1) = .error e) :
    GeneratePRMessage commits config template api inputs =
      (.error e,
       [prFirstMessages config commits template,
        prSecondMessages config commits template
          (askUserQuestions ((extractQuestions resp).1.getD []) inputs)]) := by
  rw [GeneratePRMessage, if_neg h, hr]
  simp only [hq, if_true, ha, h2]

theorem gpr_answered_ok {resp resp2 : String} (h : ¬ config.APIKey = "")
    (hr : makeOpenAIRequest (api 0) = .ok resp)
    (hq : ((extractQuestions resp).2 && config.EnableQuestions) = true)
    (ha : ((askUserQuestions ((extractQuestions resp).1.getD []) inputs).any
        (fun q => q.Answer != "")) = true)
    (h2 : makeOpenAIRequest (api 1) = .ok resp2) :
    GeneratePRMessage commits config template api inputs =
      (.ok (goTrimSpace resp2),
       [prFirstMessages config commits template,
        prSecondMessages config commits template
          (askUserQuestions ((extractQuestions resp).1.getD []) inputs)]) := by
  rw [GeneratePRMessage, if_neg h, hr]
  simp only [hq, if_true, ha, h2]

end RunShape

theorem extractQuestions_decode_err {r p : String}
    (hp : claimQuestionsPayload r = some p) (hu : unmarshalQuestions p = none) :
    extractQuestions r = (none, false) := by
  have hE := extractQuestions_payload_some hp
  rw [hu] at hE
  exact hE

theorem extractQuestions_decode {r p : String} {qs : List String}
    (hp : claimQuestionsPayload r = some p) (hu : unmarshalQuestions p = some qs) :
    extractQuestions r =
      if qs.length = 0 then (none, false)
      else
        (some ((if qs.length > 3 then qs.take 3 else qs).map (fun q => ⟨q, ""⟩)),
         decide (((if qs.length > 3 then qs.take 3 else qs).map
           (fun q => (⟨q, ""⟩ : QuestionResponse))).length > 0)) := by
  have hE := extractQuestions_payload_some hp
  rw [hu] at hE
  exact hE

/-! ### Claim C1 -/

/-- Claim C1, corrected.  `extractQuestions` locates the payload at the first
occurrence of the literal `{"questions":` and delimits it with the
brace-counting scan, falling back to the first closing brace at or after the
marker when the counter never returns to zero; it reports questions (a
non-nil slice and `true`) iff the marker is present, the delimited substring
exists and decodes as a JSON object with a non-empty `questions` array;
otherwise it returns nil and `false`. -/
theorem extractQuestions_reports_iff :
    ∀ r : String,
      ((extractQuestions r).2 = true ↔
        ∃ p qs, claimQuestionsPayload r = some p ∧ unmarshalQuestions p = some qs ∧
          qs ≠ []) ∧
      (∀ l, (extractQuestions r).1 = some l → l ≠ [] ∧ (extractQuestions r).2 = true) ∧
      ((extractQuestions r).2 = false → extractQuestions r = (none, false)) := by
  intro r
  cases hp : claimQuestionsPayload r with
  | none =>
    have hE := extractQuestions_payload_none hp
    rw [hE]
    refine ⟨?_, ?_, ?_⟩
    · constructor
      · intro h
        exact absurd h (by simp)
      · rintro ⟨p', qs, hp', -, -⟩
        exact Option.noConfusion hp'
    · intro l hl
      exact absurd hl (by simp)
    · intro _
      rfl
  | some p =>
    cases hu : unmarshalQuestions p with
    | none =>
      have hE := extractQuestions_decode_err hp hu
      rw [hE]
      refine ⟨?_, ?_, ?_⟩
      · constructor
        · intro h
          exact absurd h (by simp)
        · rintro ⟨p', qs, hp', hu', -⟩
          obtain rfl : p = p' := Option.some.inj hp'
          rw [hu] at hu'
          exact Option.noConfusion hu'
      · intro l hl
        exact absurd hl (by simp)
      · intro _
        rfl
    | some qs =>
      have hE := extractQuestions_decode hp hu
      by_cases hq0 : qs.length = 0
      · have hqnil : qs = [] := List.length_eq_zero.mp hq0
        rw [hE, if_pos hq0]
        refine ⟨?_, ?_, ?_⟩
        · constructor
          · intro h
            exact absurd h (by simp)
          · rintro ⟨p', qs', hp', hu', hne⟩
            obtain rfl : p = p' := Option.some.inj hp'
            rw [hu] at hu'
            obtain rfl : qs = qs' := Option.some.inj hu'
            exact absurd hqnil hne
        · intro l hl
          exact absurd hl (by simp)
        · intro _
          rfl
      · have hpos : 0 < ((if qs.length > 3 then qs.take 3 else qs).map
            (fun q => (⟨q, ""⟩ : QuestionResponse))).length := by
          rw [List.length_map]
          by_cases h3 : qs.length > 3
          · simp only [h3, if_true, List.length_take]
            omega
          · simp only [h3, if_false]
            omega
        rw [hE, if_neg hq0]
        refine ⟨?_, ?_, ?_⟩
        · constructor
          · intro _
            exact ⟨p, qs, rfl, hu, fun h => hq0 (by simp [h])⟩
          · intro _
            exact decide_eq_true hpos
        · intro l hl
          have hl' : (if qs.length > 3 then qs.take 3 else qs).map
              (fun q => (⟨q, ""⟩ : QuestionResponse)) = l := Option.some.inj hl
          constructor
          · intro hnil
            rw [hl', hnil] at hpos
            simp at hpos
          · exact decide_eq_true hpos
        · intro hfalse
          rw [decide_eq_true hpos] at hfalse
          exact Bool.noConfusion hfalse

/-- Witness for `extractQuestions_reports_iff` at a concrete response. -/
theorem extractQuestions_reports_iff_witness :
    (extractQuestions "ok \x7b\"questions\": [\"why\"]\x7d").2 = true :=
  (extractQuestions_reports_iff "ok \x7b\"questions\": [\"why\"]\x7d").1.mpr
    ⟨"\x7b\"questions\": [\"why\"]\x7d", ["why"], by decide, by decide, by decide⟩

/-- Counterexample to claim C1 as stated.  On this response the brace counter
never returns to zero (the question string contains a `{`), so under the
claim's description — the payload ends at the first position where the counter
returns to zero, and questions are reported only when that delimited substring
parses — no questions should be reported; yet `extractQuestions` reports one,
through the first-closing-brace fallback the claim omits. -/
theorem extractQuestions_counter_never_zero_cex :
    (extractQuestions "\x7b\"questions\": [\"a\x7b\"]\x7d").2 = true ∧
    goIndex "\x7b\"questions\": [\"a\x7b\"]\x7d" questionsMarker = some 0 ∧
    braceScan ("\x7b\"questions\": [\"a\x7b\"]\x7d".data.drop 0) 0 0 = none := by
  refine ⟨by decide, by decide, by decide⟩

/-! ### Claim C8 -/

/-- Claim C8: `extractQuestions` returns at most three questions, and when the
decoded `questions` array has more than three entries, exactly the first
three are returned, in their original order, with empty `Answer` fields. -/
theorem extractQuestions_caps_at_three :
    (∀ (r : String) (l : List QuestionResponse) (b : Bool),
      extractQuestions r = (some l, b) → l.length ≤ 3) ∧
    (∀ (r p : String) (qs : List String),
      claimQuestionsPayload r = some p → unmarshalQuestions p = some qs →
      3 < qs.length →
      extractQuestions r = (some ((qs.take 3).map (fun q => ⟨q, ""⟩)), true)) := by
  constructor
  · intro r l b hE
    cases hp : claimQuestionsPayload r with
    | none =>
      rw [extractQuestions_payload_none hp] at hE
      have := congrArg Prod.fst hE
      simp at this
    | some p =>
      cases hu : unmarshalQuestions p with
      | none =>
        rw [extractQuestions_decode_err hp hu] at hE
        have := congrArg Prod.fst hE
        simp at this
      | some qs =>
        rw [extractQuestions_decode hp hu] at hE
        by_cases hq0 : qs.length = 0
        · rw [if_pos hq0] at hE
          have := congrArg Prod.fst hE
          simp at this
        · rw [if_neg hq0] at hE
          have h1 := congrArg Prod.fst hE
          simp only [Option.some.injEq] at h1
          rw [← h1, List.length_map]
          by_cases h3 : qs.length > 3
          · simp only [h3, if_true, List.length_take]
            omega
          · simp only [h3, if_false]
            omega
  · intro r p qs hp hu h3
    rw [extractQuestions_decode hp hu, if_neg (by omega), if_pos h3]
    refine congrArg (fun b => (_, b)) ?_
    apply decide_eq_true
    simp only [List.length_map, List.length_take]
    omega

/-- Witness for `extractQuestions_caps_at_three` on a four-question payload. -/
theorem extractQuestions_caps_at_three_witness :
    extractQuestions "\x7b\"questions\": [\"q1\",\"q2\",\"q3\",\"q4\"]\x7d" =
      (some [⟨"q1", ""⟩, ⟨"q2", ""⟩, ⟨"q3", ""⟩], true) :=
  extractQuestions_caps_at_three.2 "\x7b\"questions\": [\"q1\",\"q2\",\"q3\",\"q4\"]\x7d"
    "\x7b\"questions\": [\"q1\",\"q2\",\"q3\",\"q4\"]\x7d" ["q1", "q2", "q3", "q4"]
    (by decide) (by decide) (by decide)

/-! ### Claim C9 -/

/-- Claim C9: `askUserQuestions` preserves the questions themselves — the
result has the same length and, at every index, the same `Question` field;
only the `Answer` fields change. -/
theorem askUserQuestions_frame :
    ∀ (qs : List QuestionResponse) (inputs : List String),
      (askUserQuestions qs inputs).length = qs.length ∧
      (askUserQuestions qs inputs).map (fun q => q.Question) =
        qs.map (fun q => q.Question) ∧
      (∀ (i : Nat) (h1 : i < (askUserQuestions qs inputs).length) (h2 : i < qs.length),
        ((askUserQuestions qs inputs).get ⟨i, h1⟩).Question =
          (qs.get ⟨i, h2⟩).Question) := by
  intro qs inputs
  refine ⟨askUserQuestions_length qs inputs, askUserQuestions_preserves qs inputs, ?_⟩
  intro i h1 h2
  have hm := askUserQuestions_preserves qs inputs
  have h1' : i < ((askUserQuestions qs inputs).map (fun q => q.Question)).length := by
    simpa using h1
  have := List.get_of_eq hm ⟨i, h1'⟩
  simpa [List.get_map] using this

/-! ### Claim C10 -/

/-- Claim C10: when the trimmed answer to question `i` lowercases to
`skip all` or `skipall` (and no earlier answer did), question `i` keeps that
trimmed text as its answer — which is non-empty, so the any-answered check in
`GeneratePRMessage` succeeds — every later question gets an empty answer, and
no further input lines are read (the result does not depend on them). -/
theorem askUserQuestions_skip_all :
    ∀ (qs : List QuestionResponse) (pre : List String) (x : String)
      (post : List String) (hlen : pre.length < qs.length),
      (∀ a ∈ pre, skipRequested (goTrimSpace a) = false) →
      skipRequested (goTrimSpace x) = true →
      (askUserQuestions qs (pre ++ x :: post) =
        askUserQuestions (qs.take pre.length) pre ++
          { qs.get ⟨pre.length, hlen⟩ with Answer := goTrimSpace x } ::
            (qs.drop (pre.length + 1)).map (fun r => { r with Answer := "" })) ∧
      goTrimSpace x ≠ "" ∧
      askUserQuestions qs (pre ++ x :: post) = askUserQuestions qs (pre ++ [x]) ∧
      (askUserQuestions qs (pre ++ x :: post)).any (fun q => q.Answer != "") = true := by
  intro qs pre x post hlen hpre hx
  have h1 := askUserQuestions_skip_shape qs pre x post hlen hpre hx
  have h2 := askUserQuestions_skip_shape qs pre x [] hlen hpre hx
  have hne := skipRequested_ne_empty hx
  refine ⟨h1, hne, h1.trans h2.symm, ?_⟩
  rw [h1]
  simp [List.any_append, List.any_cons, hne]

/-- Witness for `askUserQuestions_skip_all` at a concrete run. -/
theorem askUserQuestions_skip_all_witness :
    askUserQuestions [⟨"q1", ""⟩, ⟨"q2", ""⟩, ⟨"q3", ""⟩] (["a1"] ++ "Skip All" :: ["junk"]) =
      [⟨"q1", "a1"⟩, ⟨"q2", "Skip All"⟩, ⟨"q3", ""⟩] := by
  have h := (askUserQuestions_skip_all [⟨"q1", ""⟩, ⟨"q2", ""⟩, ⟨"q3", ""⟩]
    ["a1"] "Skip All" ["junk"] (by decide) (by decide) (by decide)).1
  rw [h]
  decide

/-! ### Claim C6 -/

/-- Claim C6: the extraction scans are total on every input.  Every index the
code computes respects the Go slice bounds — the marker position `s`
satisfies `s + 13 ≤ len`, a scan result `e` satisfies `s ≤ e` and
`e + 1 ≤ len` (so `response[s:e+1]`, `response[:s]` and `response[e+1:]` are
all in bounds), the fallback position likewise — and when no closing brace
occurs at or after the marker, `extractQuestions` returns nil and `false`
rather than failing. -/
theorem extraction_scans_in_bounds :
    ∀ (r : String) (s : Nat), goIndex r questionsMarker = some s →
      s + questionsMarker.data.length ≤ r.data.length ∧
      (∀ e, braceScan (r.data.drop s) 0 s = some e →
        s ≤ e ∧ e + 1 ≤ r.data.length) ∧
      (∀ j, idxOfFrom (r.data.drop s) ['}'] 0 = some j →
        s + j + 1 ≤ r.data.length) ∧
      (idxOfFrom (r.data.drop s) ['}'] 0 = none →
        extractQuestions r = (none, false)) := by
  intro r s hs0
  have hs := hs0
  rw [goIndex] at hs
  have hb := idxOfFrom_bounds hs
  have hsl : s + questionsMarker.data.length ≤ r.data.length := by omega
  refine ⟨hsl, ?_, ?_, ?_⟩
  · intro e he
    have hbs := braceScan_bounds he
    have hdl : (r.data.drop s).length = r.data.length - s := List.length_drop s r.data
    have hmark : 0 < questionsMarker.data.length := by decide
    omega
  · intro j hj
    have hjb := idxOfFrom_bounds hj
    have hdl : (r.data.drop s).length = r.data.length - s := List.length_drop s r.data
    simp only [List.length_cons, List.length_nil] at hjb
    omega
  · intro hnone
    have hmem := idxOfFrom_none_not_mem hnone
    have hscan : braceScan (r.data.drop s) 0 s = none := by
      cases hb2 : braceScan (r.data.drop s) 0 s with
      | none => rfl
      | some e => exact absurd (braceScan_mem hb2) hmem
    apply extractQuestions_payload_none
    rw [claimQuestionsPayload]
    simp only [hs0, hscan, hnone]

/-- Witness for `extraction_scans_in_bounds` at a concrete response. -/
theorem extraction_scans_in_bounds_witness :
    4 + questionsMarker.data.length ≤
      ("say \x7b\"questions\": [\"a\"]\x7d" : String).data.length :=
  (extraction_scans_in_bounds "say \x7b\"questions\": [\"a\"]\x7d" 4 (by decide)).1

section OldShape

variable {commits template e content : String} {config : OldLLMConfig}
variable {api : Nat → ApiOutcome}

theorem gprOld_key_empty (h : config.APIKey = "") :
    GeneratePRMessageOld commits config template api =
      (.error apiKeyMissingError, []) := by
  rw [GeneratePRMessageOld, if_pos h]

theorem gprOld_err (h : ¬ config.APIKey = "")
    (he : makeOpenAIRequest (api 0) = .error e) :
    GeneratePRMessageOld commits config template api =
      (.error e, [oldPRMsgList commits template]) := by
  rw [GeneratePRMessageOld, if_neg h, he]

theorem gprOld_ok (h : ¬ config.APIKey = "")
    (hc : makeOpenAIRequest (api 0) = .ok content) :
    GeneratePRMessageOld commits config template api =
      (.ok (goTrimSpace content), [oldPRMsgList commits template]) := by
  rw [GeneratePRMessageOld, if_neg h, hc]

end OldShape

section CommitShape

variable {diff template e content : String} {config : LLMConfig} {api : ApiOutcome}

theorem gcm_key_empty (h : config.APIKey = "") :
    GenerateCommitMessage diff config template api =
      (.error apiKeyMissingError, []) := by
  rw [GenerateCommitMessage, if_pos h]

theorem gcm_err (h : ¬ config.APIKey = "") (he : makeOpenAIRequest api = .error e) :
    GenerateCommitMessage diff config template api =
      (.error e, [commitMsgList diff template]) := by
  rw [GenerateCommitMessage, if_neg h, he]

theorem gcm_ok (h : ¬ config.APIKey = "") (hc : makeOpenAIRequest api = .ok content) :
    GenerateCommitMessage diff config template api =
      (.ok (goTrimSpace content), [commitMsgList diff template]) := by
  rw [GenerateCommitMessage, if_neg h, hc]

end CommitShape

/-- Decoded responses determine `makeOpenAIRequest` results: a response with
no error field and a first choice yields that choice's content. -/
theorem makeOpenAIRequest_ok {r : ChatResponse} {c : ChatChoice}
    {rest : List ChatChoice} (herr : r.Error = none) (hch : r.Choices = c :: rest) :
    makeOpenAIRequest (.success r) = .ok c.Message.Content := by
  rw [makeOpenAIRequest, herr, hch]

/-! ### Claim C7 -/

/-- Claim C7: with `EnableQuestions = false` and equal API keys, the
questions-enabled variant and the older single-call variant of
`GeneratePRMessage` are equivalent: they return the same value for the same
API outcomes, both issue exactly one request when the key is set, and when
the decoded response has no error and a first choice, both return that
choice's content trimmed. -/
theorem generatePRMessage_variants_agree :
    ∀ (commits : String) (config : LLMConfig) (oldConfig : OldLLMConfig)
      (template : String) (api : Nat → ApiOutcome) (inputs : List String),
      config.EnableQuestions = false →
      config.APIKey = oldConfig.APIKey →
      ((GeneratePRMessage commits config template api inputs).1 =
        (GeneratePRMessageOld commits oldConfig template api).1) ∧
      (config.APIKey ≠ "" →
        (GeneratePRMessage commits config template api inputs).2.length = 1 ∧
        (GeneratePRMessageOld commits oldConfig template api).2.length = 1) ∧
      (∀ (r : ChatResponse) (c : ChatChoice) (rest : List ChatChoice),
        config.APIKey ≠ "" → api 0 = .success r → r.Error = none →
        r.Choices = c :: rest →
        (GeneratePRMessage commits config template api inputs).1 =
          .ok (goTrimSpace c.Message.Content) ∧
        (GeneratePRMessageOld commits oldConfig template api).1 =
          .ok (goTrimSpace c.Message.Content)) := by
  intro commits config oldConfig template api inputs hEnable hKey
  by_cases hk : config.APIKey = ""
  · have hko : oldConfig.APIKey = "" := by rw [← hKey]; exact hk
    rw [gpr_key_empty hk, gprOld_key_empty hko]
    refine ⟨rfl, ?_, ?_⟩
    · intro h
      exact absurd hk h
    · intro r c rest h
      exact absurd hk h
  · have hko : ¬ oldConfig.APIKey = "" := by rw [← hKey]; exact hk
    cases hm : makeOpenAIRequest (api 0) with
    | error e =>
      rw [gpr_first_err hk hm, gprOld_err hko hm]
      refine ⟨rfl, fun _ => ⟨rfl, rfl⟩, ?_⟩
      intro r c rest _ hapi herr hch
      rw [hapi, makeOpenAIRequest_ok herr hch] at hm
      exact Except.noConfusion hm
    | ok content =>
      have hq : ((extractQuestions content).2 && config.EnableQuestions) = false := by
        rw [hEnable, Bool.and_false]
      rw [gpr_no_second hk hm hq, gprOld_ok hko hm]
      refine ⟨rfl, fun _ => ⟨rfl, rfl⟩, ?_⟩
      intro r c rest _ hapi herr hch
      rw [hapi, makeOpenAIRequest_ok herr hch] at hm
      have : content = c.Message.Content := (Except.ok.inj hm).symm
      subst this
      exact ⟨rfl, rfl⟩

/-- Witness for `generatePRMessage_variants_agree` at concrete arguments. -/
theorem generatePRMessage_variants_agree_witness :
    (GeneratePRMessage "c" ⟨"k", "gpt-4", 0.7, 1000, false⟩ "t"
        (fun _ => .success ⟨[⟨⟨"assistant", " body "⟩⟩], none⟩) []).1 =
      .ok (goTrimSpace " body ") ∧
    (GeneratePRMessageOld "c" ⟨"k", "gpt-4", 0.7, 1000⟩ "t"
        (fun _ => .success ⟨[⟨⟨"assistant", " body "⟩⟩], none⟩)).1 =
      .ok (goTrimSpace " body ") :=
  (generatePRMessage_variants_agree "c" ⟨"k", "gpt-4", 0.7, 1000, false⟩
      ⟨"k", "gpt-4", 0.7, 1000⟩ "t"
      (fun _ => .success ⟨[⟨⟨"assistant", " body "⟩⟩], none⟩) [] rfl rfl).2.2
    ⟨[⟨⟨"assistant", " body "⟩⟩], none⟩ ⟨⟨"assistant", " body "⟩⟩ []
    (by simp) rfl rfl rfl

/-! ### Claim C2 -/

/-- The exact condition under which the questions-enabled `GeneratePRMessage`
issues its follow-up request: the key check passed, the first request
succeeded, its response contained an extractable questions payload, questions
are enabled, and at least one question received a non-empty answer. -/
def followUpTaken (config : LLMConfig) (api : Nat → ApiOutcome)
    (inputs : List String) : Prop :=
  config.APIKey ≠ "" ∧ ∃ resp,
    makeOpenAIRequest (api 0) = .ok resp ∧
    (extractQuestions resp).2 = true ∧
    config.EnableQuestions = true ∧
    (askUserQuestions ((extractQuestions resp).1.getD []) inputs).any
      (fun q => q.Answer != "") = true

/-- Counterexample to claim C2 as stated: `GeneratePRMessage` does not always
issue an initial request — with an empty API key it returns before issuing
any, so its request transcript is empty. -/
theorem generatePRMessage_no_initial_request_cex :
    ¬ (∀ (commits : String) (config : LLMConfig) (template : String)
        (api : Nat → ApiOutcome) (inputs : List String),
        1 ≤ (GeneratePRMessage commits config template api inputs).2.length) := by
  intro h
  have := h "" ⟨"", "gpt-4", 0.7, 1000, true⟩ "" (fun _ => .transportFailure "down") []
  rw [gpr_key_empty rfl] at this
  simp at this

/-- Claim C2, corrected.  At most two requests are issued: one initial request
whenever the API-key check passes, and one follow-up exactly when
`followUpTaken` holds; when the follow-up succeeds its response is returned
trimmed, without being scanned for questions again. -/
theorem generatePRMessage_at_most_two_requests :
    ∀ (commits : String) (config : LLMConfig) (template : String)
      (api : Nat → ApiOutcome) (inputs : List String),
      (GeneratePRMessage commits config template api inputs).2.length ≤ 2 ∧
      (config.APIKey ≠ "" →
        1 ≤ (GeneratePRMessage commits config template api inputs).2.length) ∧
      ((GeneratePRMessage commits config template api inputs).2.length = 2 ↔
        followUpTaken config api inputs) ∧
      (∀ resp2, followUpTaken config api inputs →
        makeOpenAIRequest (api 1) = .ok resp2 →
        (GeneratePRMessage commits config template api inputs).1 =
          .ok (goTrimSpace resp2)) := by
  intro commits config template api inputs
  by_cases hk : config.APIKey = ""
  · rw [gpr_key_empty hk]
    refine ⟨by simp, ?_, ?_, ?_⟩
    · intro h
      exact absurd hk h
    · constructor
      · intro h
        simp at h
      · rintro ⟨hk', -⟩
        exact absurd hk hk'
    · rintro resp2 ⟨hk', -⟩ _
      exact absurd hk hk'
  · cases hm : makeOpenAIRequest (api 0) with
    | error e =>
      rw [gpr_first_err hk hm]
      refine ⟨by simp, fun _ => by simp, ?_, ?_⟩
      · constructor
        · intro h
          simp at h
        · rintro ⟨-, resp, hok, -⟩
          rw [hm] at hok
          exact Except.noConfusion hok
      · rintro resp2 ⟨-, resp, hok, -⟩ _
        rw [hm] at hok
        exact Except.noConfusion hok
    | ok resp =>
      cases hq2 : (extractQuestions resp).2 with
      | false =>
        have hq : ((extractQuestions resp).2 && config.EnableQuestions) = false := by
          rw [hq2, Bool.false_and]
        rw [gpr_no_second hk hm hq]
        refine ⟨by simp, fun _ => by simp, ?_, ?_⟩
        · constructor
          · intro h
            simp at h
          · rintro ⟨-, resp', hok, h2', -⟩
            rw [hm] at hok
            obtain rfl : resp = resp' := Except.ok.inj hok
            rw [hq2] at h2'
            exact Bool.noConfusion h2'
        · rintro resp2 ⟨-, resp', hok, h2', -⟩ _
          rw [hm] at hok
          obtain rfl : resp = resp' := Except.ok.inj hok
          rw [hq2] at h2'
          exact Bool.noConfusion h2'
      | true =>
        cases hEn : config.EnableQuestions with
        | false =>
          have hq : ((extractQuestions resp).2 && config.EnableQuestions) = false := by
            rw [hEn, Bool.and_false]
          rw [gpr_no_second hk hm hq]
          refine ⟨by simp, fun _ => by simp, ?_, ?_⟩
          · constructor
            · intro h
              simp at h
            · rintro ⟨-, resp', hok, -, hEn', -⟩
              rw [hEn] at hEn'
              exact Bool.noConfusion hEn'
          · rintro resp2 ⟨-, resp', hok, -, hEn', -⟩ _
            rw [hEn] at hEn'
            exact Bool.noConfusion hEn'
        | true =>
          have hq : ((extractQuestions resp).2 && config.EnableQuestions) = true := by
            rw [hq2, hEn]
            rfl
          cases ha : (askUserQuestions ((extractQuestions resp).1.getD []) inputs).any
              (fun q => q.Answer != "") with
          | false =>
            rw [gpr_unanswered hk hm hq ha]
            refine ⟨by simp, fun _ => by simp, ?_, ?_⟩
            · constructor
              · intro h
                simp at h
              · rintro ⟨-, resp', hok, -, -, ha'⟩
                rw [hm] at hok
                obtain rfl : resp = resp' := Except.ok.inj hok
                rw [ha] at ha'
                exact Bool.noConfusion ha'
            · rintro resp2 ⟨-, resp', hok, -, -, ha'⟩ _
              rw [hm] at hok
              obtain rfl : resp = resp' := Except.ok.inj hok
              rw [ha] at ha'
              exact Bool.noConfusion ha'
          | true =>
            have hfu : followUpTaken config api inputs :=
              ⟨hk, resp, hm, hq2, hEn, ha⟩
            cases h2 : makeOpenAIRequest (api 1) with
            | error e2 =>
              rw [gpr_answered_err hk hm hq ha h2]
              refine ⟨by simp, fun _ => by simp, ?_, ?_⟩
              · exact ⟨fun _ => hfu, fun _ => by simp⟩
              · intro resp2 _ h2'
                exact Except.noConfusion h2'
            | ok resp2 =>
              rw [gpr_answered_ok hk hm hq ha h2]
              refine ⟨by simp, fun _ => by simp, ?_, ?_⟩
              · exact ⟨fun _ => hfu, fun _ => by simp⟩
              · intro resp2' _ h2'
                obtain rfl : resp2 = resp2' := Except.ok.inj h2'
                rfl

/-- Witness for `generatePRMessage_at_most_two_requests`: a run whose
follow-up is taken returns the trimmed second response. -/
theorem generatePRMessage_at_most_two_requests_witness :
    (GeneratePRMessage "c" ⟨"k", "gpt-4", 0.7, 1000, true⟩ "t"
        (fun n => if n = 0
          then .success ⟨[⟨⟨"assistant", "\x7b\"questions\": [\"q1\"]\x7d"⟩⟩], none⟩
          else .success ⟨[⟨⟨"assistant", " done "⟩⟩], none⟩) ["ans"]).1 =
      .ok (goTrimSpace " done ") :=
  (generatePRMessage_at_most_two_requests "c" ⟨"k", "gpt-4", 0.7, 1000, true⟩ "t"
      (fun n => if n = 0
        then .success ⟨[⟨⟨"assistant", "\x7b\"questions\": [\"q1\"]\x7d"⟩⟩], none⟩
        else .success ⟨[⟨⟨"assistant", " done "⟩⟩], none⟩) ["ans"]).2.2.2 " done "
    ⟨by decide, "\x7b\"questions\": [\"q1\"]\x7d", rfl, by decide, rfl, by decide⟩ rfl

/-! ### Claim C3 -/

/-- Claim C3: the second request replays the entire original context — the
same system prompt and the same commit-list user message as the first call —
followed by the fixed assistant notice, then, for each question with a
non-empty answer in the original order, an assistant message with the
question and a user message with the answer (empty-answer pairs omitted),
and finally the fixed closing user instruction. -/
theorem generatePRMessage_replays_context :
    ∀ (commits : String) (config : LLMConfig) (template : String)
      (api : Nat → ApiOutcome) (inputs : List String) (resp : String),
      config.APIKey ≠ "" →
      makeOpenAIRequest (api 0) = .ok resp →
      (extractQuestions resp).2 = true →
      config.EnableQuestions = true →
      (askUserQuestions ((extractQuestions resp).1.getD []) inputs).any
        (fun q => q.Answer != "") = true →
      (GeneratePRMessage commits config template api inputs).2 =
        [prFirstMessages config commits template,
         prFirstMessages config commits template ++ [assistantNotice] ++
           (((askUserQuestions ((extractQuestions resp).1.getD []) inputs).filter
               (fun q => q.Answer != "")).map
             (fun qa => [ChatMessage.mk "assistant" qa.Question,
                         ChatMessage.mk "user" qa.Answer])).join ++
           [finalUserPrompt]] ∧
      prFirstMessages config commits template =
        [⟨"system", prSystemPrompt config.EnableQuestions template⟩,
         ⟨"user", commitsUserContent commits⟩] := by
  intro commits config template api inputs resp hk hm hq2 hEn ha
  have hq : ((extractQuestions resp).2 && config.EnableQuestions) = true := by
    rw [hq2, hEn]
    rfl
  refine ⟨?_, rfl⟩
  cases h2 : makeOpenAIRequest (api 1) with
  | error e2 =>
    rw [gpr_answered_err hk hm hq ha h2, prSecondMessages, qaMessages_eq_join_filter]
  | ok resp2 =>
    rw [gpr_answered_ok hk hm hq ha h2, prSecondMessages, qaMessages_eq_join_filter]

/-- Witness for `generatePRMessage_replays_context` at a concrete run. -/
theorem generatePRMessage_replays_context_witness :
    (GeneratePRMessage "c" ⟨"k", "gpt-4", 0.7, 1000, true⟩ "t"
        (fun n => if n = 0
          then .success ⟨[⟨⟨"assistant", "\x7b\"questions\": [\"q1\"]\x7d"⟩⟩], none⟩
          else .success ⟨[⟨⟨"assistant", "done"⟩⟩], none⟩) ["ans"]).2 =
      [prFirstMessages ⟨"k", "gpt-4", 0.7, 1000, true⟩ "c" "t",
       prFirstMessages ⟨"k", "gpt-4", 0.7, 1000, true⟩ "c" "t" ++ [assistantNotice] ++
         (((askUserQuestions
             ((extractQuestions "\x7b\"questions\": [\"q1\"]\x7d").1.getD []) ["ans"]).filter
             (fun q => q.Answer != "")).map
           (fun qa => [ChatMessage.mk "assistant" qa.Question,
                       ChatMessage.mk "user" qa.Answer])).join ++
         [finalUserPrompt]] :=
  (generatePRMessage_replays_context "c" ⟨"k", "gpt-4", 0.7, 1000, true⟩ "t"
      (fun n => if n = 0
        then .success ⟨[⟨⟨"assistant", "\x7b\"questions\": [\"q1\"]\x7d"⟩⟩], none⟩
        else .success ⟨[⟨⟨"assistant", "done"⟩⟩], none⟩) ["ans"]
      "\x7b\"questions\": [\"q1\"]\x7d" (by decide) rfl (by decide) rfl (by decide)).1

/-! ### Claim C4 -/

/-- Counterexample to claim C4 as stated: when no question is answered the
function returns `extractPRDescription` of the first response only up to
`strings.TrimSpace` — here `extractPRDescription` passes the response through
unchanged (no matching closing brace), but `GeneratePRMessage` returns it
trimmed, not unchanged. -/
theorem generatePRMessage_untrimmed_cex :
    (GeneratePRMessage "c" ⟨"k", "gpt-4", 0.7, 1000, true⟩ "t"
        (fun _ => .success
          ⟨[⟨⟨"assistant", "  x \x7b\"questions\": [\"a\x7b\"]\x7d  "⟩⟩], none⟩) [""]).1 =
      .ok "x \x7b\"questions\": [\"a\x7b\"]\x7d" ∧
    extractPRDescription "  x \x7b\"questions\": [\"a\x7b\"]\x7d  " =
      "  x \x7b\"questions\": [\"a\x7b\"]\x7d  " ∧
    ("x \x7b\"questions\": [\"a\x7b\"]\x7d" : String) ≠
      "  x \x7b\"questions\": [\"a\x7b\"]\x7d  " := by
  refine ⟨rfl, by decide, by decide⟩

/-- Claim C4, corrected.  When questions are extracted and enabled but none is
answered, `GeneratePRMessage` returns `extractPRDescription` of the first
response with surrounding white space trimmed; and `extractPRDescription`
itself returns the empty string when the trimmed response is empty or starts
with the `{"questions":` marker, the response unchanged when the marker or a
matching closing brace is missing, and otherwise the trimmed text before the
payload and the trimmed text after it, joined by a blank line when both are
non-empty. -/
theorem generatePRMessage_unanswered_extracts :
    (∀ (commits : String) (config : LLMConfig) (template : String)
      (api : Nat → ApiOutcome) (inputs : List String) (resp : String),
      config.APIKey ≠ "" →
      makeOpenAIRequest (api 0) = .ok resp →
      (extractQuestions resp).2 = true →
      config.EnableQuestions = true →
      (askUserQuestions ((extractQuestions resp).1.getD []) inputs).any
        (fun q => q.Answer != "") = false →
      (GeneratePRMessage commits config template api inputs).1 =
        .ok (goTrimSpace (extractPRDescription resp))) ∧
    (∀ r : String,
      ((goTrimSpace r = "" ∨ goHasPre (goTrimSpace r) questionsMarker = true) →
        extractPRDescription r = "") ∧
      (¬ (goTrimSpace r = "" ∨ goHasPre (goTrimSpace r) questionsMarker = true) →
        goIndex r questionsMarker = none → extractPRDescription r = r) ∧
      (∀ s, ¬ (goTrimSpace r = "" ∨ goHasPre (goTrimSpace r) questionsMarker = true) →
        goIndex r questionsMarker = some s →
        braceScan (r.data.drop s) 0 s = none → extractPRDescription r = r) ∧
      (∀ s e, ¬ (goTrimSpace r = "" ∨ goHasPre (goTrimSpace r) questionsMarker = true) →
        goIndex r questionsMarker = some s →
        braceScan (r.data.drop s) 0 s = some e →
        extractPRDescription r =
          (if goTrimSpace ⟨r.data.take s⟩ ≠ "" ∧ goTrimSpace ⟨r.data.drop (e + 1)⟩ ≠ "" then
            goTrimSpace ⟨r.data.take s⟩ ++ "\n\n" ++ goTrimSpace ⟨r.data.drop (e + 1)⟩
          else if goTrimSpace ⟨r.data.take s⟩ ≠ "" then goTrimSpace ⟨r.data.take s⟩
          else if goTrimSpace ⟨r.data.drop (e + 1)⟩ ≠ "" then goTrimSpace ⟨r.data.drop (e + 1)⟩
          else ""))) := by
  constructor
  · intro commits config template api inputs resp hk hm hq2 hEn ha
    have hq : ((extractQuestions resp).2 && config.EnableQuestions) = true := by
      rw [hq2, hEn]
      rfl
    rw [gpr_unanswered hk hm hq ha]
  · intro r
    refine ⟨?_, ?_, ?_, ?_⟩
    · intro h
      rw [extractPRDescription, if_pos h]
    · intro h hidx
      rw [extractPRDescription, if_neg h, hidx]
    · intro s h hidx hscan
      rw [extractPRDescription, if_neg h]
      simp only [hidx, hscan]
    · intro s e h hidx hscan
      rw [extractPRDescription, if_neg h]
      simp only [hidx, hscan]

/-- Witness for `generatePRMessage_unanswered_extracts` at a concrete run. -/
theorem generatePRMessage_unanswered_extracts_witness :
    (GeneratePRMessage "c" ⟨"k", "gpt-4", 0.7, 1000, true⟩ "t"
        (fun _ => .success
          ⟨[⟨⟨"assistant", "intro \x7b\"questions\": [\"q1\"]\x7d outro"⟩⟩], none⟩) [""]).1 =
      .ok (goTrimSpace (extractPRDescription "intro \x7b\"questions\": [\"q1\"]\x7d outro")) :=
  generatePRMessage_unanswered_extracts.1 "c" ⟨"k", "gpt-4", 0.7, 1000, true⟩ "t"
    (fun _ => .success
      ⟨[⟨⟨"assistant", "intro \x7b\"questions\": [\"q1\"]\x7d outro"⟩⟩], none⟩) [""]
    "intro \x7b\"questions\": [\"q1\"]\x7d outro" (by decide) rfl (by decide) rfl (by decide)

/-! ### Claim C5 -/

/-- Counterexample to claim C5 as stated: this `GeneratePRMessage` run
succeeds (no error), but its value is not the first choice's content with
surrounding white space trimmed — questions were extracted and none answered,
so the questions object is stripped and the empty string is returned. -/
theorem generatePRMessage_not_first_choice_cex :
    (GeneratePRMessage "c" ⟨"k", "gpt-4", 0.7, 1000, true⟩ "t"
        (fun _ => .success
          ⟨[⟨⟨"assistant", "\x7b\"questions\": [\"a\"]\x7d"⟩⟩], none⟩) [""]).1 =
      .ok "" ∧
    goTrimSpace "\x7b\"questions\": [\"a\"]\x7d" = "\x7b\"questions\": [\"a\"]\x7d" ∧
    ("" : String) ≠ "\x7b\"questions\": [\"a\"]\x7d" := by
  refine ⟨rfl, by decide, by decide⟩

/-- Claim C5, corrected.  Failures are reported only through the error
result: an empty API key yields an error before any request is issued; a
decoded response with a non-nil `Error` yields `API error: <message>`; empty
`Choices` yields `no response from API`.  On success `GenerateCommitMessage`
returns the first choice's content trimmed, and `GeneratePRMessage` does too
unless questions are extracted and enabled, in which case it returns the
trimmed second response (some question answered) or the trimmed
`extractPRDescription` of the first response (none answered). -/
theorem request_functions_error_spec :
    (∀ (diff : String) (config : LLMConfig) (template : String) (api : ApiOutcome),
      config.APIKey = "" →
      GenerateCommitMessage diff config template api = (.error apiKeyMissingError, [])) ∧
    (∀ (commits : String) (config : LLMConfig) (template : String)
      (api : Nat → ApiOutcome) (inputs : List String), config.APIKey = "" →
      GeneratePRMessage commits config template api inputs =
        (.error apiKeyMissingError, [])) ∧
    (∀ (r : ChatResponse) (e : ApiErr), r.Error = some e →
      makeOpenAIRequest (.success r) = .error ("API error: " ++ e.Message)) ∧
    (∀ r : ChatResponse, r.Error = none → r.Choices = [] →
      makeOpenAIRequest (.success r) = .error "no response from API") ∧
    (∀ (diff : String) (config : LLMConfig) (template : String) (api : ApiOutcome)
      (e : String), config.APIKey ≠ "" → makeOpenAIRequest api = .error e →
      (GenerateCommitMessage diff config template api).1 = .error e) ∧
    (∀ (diff : String) (config : LLMConfig) (template : String) (api : ApiOutcome)
      (r : ChatResponse) (c : ChatChoice) (rest : List ChatChoice),
      config.APIKey ≠ "" → api = .success r → r.Error = none →
      r.Choices = c :: rest →
      (GenerateCommitMessage diff config template api).1 =
        .ok (goTrimSpace c.Message.Content)) ∧
    (∀ (commits : String) (config : LLMConfig) (template : String)
      (api : Nat → ApiOutcome) (inputs : List String) (e : String),
      config.APIKey ≠ "" → makeOpenAIRequest (api 0) = .error e →
      (GeneratePRMessage commits config template api inputs).1 = .error e) ∧
    (∀ (commits : String) (config : LLMConfig) (template : String)
      (api : Nat → ApiOutcome) (inputs : List String) (resp : String),
      config.APIKey ≠ "" → makeOpenAIRequest (api 0) = .ok resp →
      ((extractQuestions resp).2 && config.EnableQuestions) = false →
      (GeneratePRMessage commits config template api inputs).1 =
        .ok (goTrimSpace resp)) ∧
    (∀ (commits : String) (config : LLMConfig) (template : String)
      (api : Nat → ApiOutcome) (inputs : List String) (resp resp2 : String),
      config.APIKey ≠ "" → makeOpenAIRequest (api 0) = .ok resp →
      ((extractQuestions resp).2 && config.EnableQuestions) = true →
      (askUserQuestions ((extractQuestions resp).1.getD []) inputs).any
        (fun q => q.Answer != "") = true →
      makeOpenAIRequest (api 1) = .ok resp2 →
      (GeneratePRMessage commits config template api inputs).1 =
        .ok (goTrimSpace resp2)) ∧
    (∀ (commits : String) (config : LLMConfig) (template : String)
      (api : Nat → ApiOutcome) (inputs : List String) (resp : String),
      config.APIKey ≠ "" → makeOpenAIRequest (api 0) = .ok resp →
      ((extractQuestions resp).2 && config.EnableQuestions) = true →
      (askUserQuestions ((extractQuestions resp).1.getD []) inputs).any
        (fun q => q.Answer != "") = false →
      (GeneratePRMessage commits config template api inputs).1 =
        .ok (goTrimSpace (extractPRDescription resp))) := by
  refine ⟨?_, ?_, ?_, ?_, ?_, ?_, ?_, ?_, ?_, ?_⟩
  · intro diff config template api h
    exact gcm_key_empty h
  · intro commits config template api inputs h
    exact gpr_key_empty h
  · intro r e herr
    rw [makeOpenAIRequest, herr]
  · intro r herr hch
    rw [makeOpenAIRequest, herr, hch]
  · intro diff config template api e hk he
    rw [gcm_err hk he]
  · intro diff config template api r c rest hk hapi herr hch
    subst hapi
    rw [gcm_ok hk (makeOpenAIRequest_ok herr hch)]
  · intro commits config template api inputs e hk he
    rw [gpr_first_err hk he]
  · intro commits config template api inputs resp hk hm hq
    rw [gpr_no_second hk hm hq]
  · intro commits config template api inputs resp resp2 hk hm hq ha h2
    rw [gpr_answered_ok hk hm hq ha h2]
  · intro commits config template api inputs resp hk hm hq ha
    rw [gpr_unanswered hk hm hq ha]

/-- Witness for `request_functions_error_spec` at concrete responses. -/
theorem request_functions_error_spec_witness :
    makeOpenAIRequest (.success ⟨[], some ⟨"boom"⟩⟩) = .error ("API error: " ++ "boom") ∧
    makeOpenAIRequest (.success ⟨[], none⟩) = .error "no response from API" ∧
    (GenerateCommitMessage "d" ⟨"k", "gpt-4", 0.7, 1000, false⟩ "t"
        (.success ⟨[⟨⟨"assistant", " msg "⟩⟩], none⟩)).1 =
      .ok (goTrimSpace " msg ") :=
  ⟨request_functions_error_spec.2.2.1 ⟨[], some ⟨"boom"⟩⟩ ⟨"boom"⟩ rfl,
   request_functions_error_spec.2.2.2.1 ⟨[], none⟩ rfl rfl,
   request_functions_error_spec.2.2.2.2.2.1 "d" ⟨"k", "gpt-4", 0.7, 1000, false⟩ "t"
     (.success ⟨[⟨⟨"assistant", " msg "⟩⟩], none⟩) ⟨[⟨⟨"assistant", " msg "⟩⟩], none⟩
     ⟨⟨"assistant", " msg "⟩⟩ [] (by decide) rfl rfl rfl⟩

/-- Witness for `askUserQuestions_frame` at a concrete run. -/
theorem askUserQuestions_frame_witness :
    ((askUserQuestions [⟨"q1", ""⟩] ["a1"]).get ⟨0, by decide⟩).Question =
      (([⟨"q1", ""⟩] : List QuestionResponse).get ⟨0, by decide⟩).Question :=
  (askUserQuestions_frame [⟨"q1", ""⟩] ["a1"]).2.2 0 (by decide) (by decide)

end PRManager
